import Mathlib

/-
Verification of the cost/budget analytics core of the openclaw-home-base
monitoring dashboard.

The development shallowly embeds the relevant TypeScript services:
  * CostTracker            (backend cost tracker service)
  * BudgetForecastService  (backend budget forecast service)
  * AlertEngine            (backend/src/services/alertEngine.ts)
  * ErrorTracker           (backend/src/services/errorTracker.ts)

Modelling conventions:
  * JavaScript numbers are modelled as exact rationals (ℚ); timestamps in
    milliseconds are modelled as integers (ℤ).
  * `parseFloat(x.toFixed(k))` is modelled by `toFixedVal k`, following the
    ECMAScript `Number.prototype.toFixed` algorithm: the sign is split off
    first, then the magnitude is rounded to the nearest multiple of 10^(-k),
    ties away from zero (`round` in Mathlib rounds ties up, which agrees on
    the non-negative magnitudes it is applied to here).
  * The two divisions the source performs without a zero guard
    (`spend / limit * 100 >= threshold` comparisons in CostTracker and
    `(secondAvg - firstAvg) / firstAvg` in the trend analysis) are modelled
    with explicit IEEE-754 case splits, because JavaScript division by zero
    yields ±Infinity / NaN rather than raising: see `jsPercentGe` and the
    zero-denominator branch of `getTrendAnalysis`.
  * `Date.now()` is passed as an explicit `now : ℤ` argument wherever the
    source reads the clock; stateful classes become explicit state passing.
  * JavaScript `Map` objects (insertion-ordered) are modelled as association
    lists: `set` on a fresh key appends, `set` on a present key updates in
    place.  Plain-object records used as maps (the per-agent breakdown) are
    modelled the same way; this matches JavaScript property order for the
    non-integer-like string keys used by the services.
-/

namespace OpenClaw

/-- Association-list update modelling `m.set(k, (m.get(k) || 0) + v)` on a
JavaScript `Map` with numeric values: an existing key keeps its position and
accumulates, a fresh key is appended at the end. -/
def mapAdd {α : Type} [DecidableEq α] : List (α × ℚ) → α → ℚ → List (α × ℚ)
  | [], k, v => [(k, v)]
  | (k0, v0) :: rest, k, v =>
      if k0 = k then (k0, v0 + v) :: rest else (k0, v0) :: mapAdd rest k v

/-- Association-list update modelling `m.set(k, v)` on a JavaScript `Map`:
an existing key keeps its position and is overwritten, a fresh key is
appended at the end. -/
def mapSet {α β : Type} [DecidableEq α] : List (α × β) → α → β → List (α × β)
  | [], k, v => [(k, v)]
  | (k0, v0) :: rest, k, v =>
      if k0 = k then (k0, v) :: rest else (k0, v0) :: mapSet rest k v

/-- Model of the JavaScript expression `parseFloat(x.toFixed(k))`: round the
magnitude of `x` to `k` decimal places (nearest, ties away from zero, per the
ECMAScript `toFixed` algorithm, which splits off the sign first) and scale
back. -/
def toFixedVal (k : ℕ) (q : ℚ) : ℚ :=
  let p : ℚ := 10 ^ k
  (if q < 0 then (-1 : ℚ) else 1) * ((round (|q| * p) : ℤ) : ℚ) / p

/-- Decimal rendering of `x.toFixed(2)`, used only to build the alert message
strings the source interpolates into template literals. -/
def toFixedStr2 (q : ℚ) : String :=
  let n : ℕ := (round (|q| * 100)).toNat
  (if q < 0 then "-" else "") ++ toString (n / 100) ++ "." ++
    (if n % 100 < 10 then "0" else "") ++ toString (n % 100)

/-- Model of the JavaScript boolean `(spend / limit) * 100 >= thr` for a
finite positive threshold `thr` (the source only uses 50, 75 and 100),
including the IEEE-754 behaviour when `limit = 0`: `spend / 0` is `+Infinity`
for `spend > 0` (so the comparison holds), `NaN` for `spend = 0` and
`-Infinity` for `spend < 0` (so it fails).  For nonzero `limit` the float
comparison agrees with the exact rational one. -/
def jsPercentGe (spend limit thr : ℚ) : Bool :=
  if 0 < limit then decide (thr * limit ≤ spend * 100)
  else if limit < 0 then decide (spend * 100 ≤ thr * limit)
  else decide (0 < spend)

end OpenClaw

namespace OpenClaw.CostTracker

/-- Raw cost sample consumed by `CostTracker` (`timestamp` in epoch ms). -/
structure CostSample where
  timestamp : ℤ
  agentId : String
  costUsd : ℚ
  deriving DecidableEq

/-- Window period accepted by `calculateWindow`. -/
inductive Period where
  | daily
  | weekly
  | monthly
  deriving DecidableEq

/-- Result record of `calculateWindow`. -/
structure CostWindow where
  period : Period
  startTime : ℤ
  endTime : ℤ
  totalCostUsd : ℚ
  requestCount : ℕ
  agentBreakdown : List (String × ℚ)
  deriving DecidableEq

/-- The `switch (period)` at the top of `calculateWindow`: the window's start
time as an offset from `now`. -/
def windowStart (period : Period) (now : ℤ) : ℤ :=
  match period with
  | .daily => now - 24 * 60 * 60 * 1000
  | .weekly => now - 7 * 24 * 60 * 60 * 1000
  | .monthly => now - 30 * 24 * 60 * 60 * 1000

/-- The filter `(c) => c.timestamp >= startTime && c.timestamp <= now`
(inclusive on both bounds). -/
def inWindow (period : Period) (now : ℤ) (c : CostSample) : Bool :=
  decide (windowStart period now ≤ c.timestamp) && decide (c.timestamp ≤ now)

/-- Embedding of `CostTracker.calculateWindow`.  `Date.now()` is the explicit
`now` argument.  The source accumulates `totalCost` and `agentBreakdown` in a
single loop over the filtered samples; the two folds below compute exactly the
same values. -/
def calculateWindow (costs : List CostSample) (period : Period) (now : ℤ) :
    CostWindow :=
  let windowCosts := costs.filter (inWindow period now)
  { period := period
    startTime := windowStart period now
    endTime := now
    totalCostUsd := toFixedVal 4 (windowCosts.map CostSample.costUsd).sum
    requestCount := windowCosts.length
    agentBreakdown := windowCosts.foldl (fun m c => mapAdd m c.agentId c.costUsd) [] }

/-- Severity carried by a budget alert. -/
inductive AlertSeverity where
  | warning
  | critical
  deriving DecidableEq

/-- Embedding of the `BudgetAlert` record. -/
structure BudgetAlert where
  agentId : Option String
  severity : AlertSeverity
  threshold : ℕ
  currentSpend : ℚ
  budgetLimit : ℚ
  message : String
  deriving DecidableEq

/-- One scope's threshold ladder inside `generateAlerts` (the source repeats
this `if / else if / else if` chain verbatim for the daily and the monthly
scope, differing only in the message prefix and in the wording of the 100%
message). -/
def scopeAlerts (scopeName : String) (spend limit : ℚ) : List BudgetAlert :=
  if jsPercentGe spend limit 100 then
    [{ agentId := none, severity := .critical, threshold := 100,
       currentSpend := spend, budgetLimit := limit,
       message := scopeName ++ " budget exceeded: $" ++ toFixedStr2 spend ++
         " / $" ++ toFixedStr2 limit }]
  else if jsPercentGe spend limit 75 then
    [{ agentId := none, severity := .warning, threshold := 75,
       currentSpend := spend, budgetLimit := limit,
       message := scopeName ++ " budget 75% used: $" ++ toFixedStr2 spend ++
         " / $" ++ toFixedStr2 limit }]
  else if jsPercentGe spend limit 50 then
    [{ agentId := none, severity := .warning, threshold := 50,
       currentSpend := spend, budgetLimit := limit,
       message := scopeName ++ " budget 50% used: $" ++ toFixedStr2 spend ++
         " / $" ++ toFixedStr2 limit }]
  else []

/-- Embedding of the per-agent loop at the end of `generateAlerts`: for every
entry of the monthly window's breakdown (in insertion order), emit a warning
alert when the agent's cost reaches 75% of the monthly budget. -/
def agentAlerts (breakdown : List (String × ℚ)) (monthlyBudgetUsd : ℚ) :
    List BudgetAlert :=
  breakdown.filterMap fun kv =>
    if jsPercentGe kv.2 monthlyBudgetUsd 75 then
      some { agentId := some kv.1, severity := .warning, threshold := 75,
             currentSpend := kv.2, budgetLimit := monthlyBudgetUsd,
             message := "Agent " ++ kv.1 ++ " using 75%+ of budget: $" ++
               toFixedStr2 kv.2 }
    else none

/-- Embedding of `CostTracker.generateAlerts`: the source pushes the daily
ladder alerts, then the monthly ladder alerts, then the per-agent alerts into
one array, which is exactly this concatenation.  There is no guard on
`monthlyBudgetUsd <= 0` in the source. -/
def generateAlerts (costs : List CostSample) (monthlyBudgetUsd : ℚ) (now : ℤ) :
    List BudgetAlert :=
  let dailyWindow := calculateWindow costs .daily now
  let monthlyWindow := calculateWindow costs .monthly now
  let dailyLimit := monthlyBudgetUsd / 30
  scopeAlerts "Daily" dailyWindow.totalCostUsd dailyLimit ++
    scopeAlerts "Monthly" monthlyWindow.totalCostUsd monthlyBudgetUsd ++
    agentAlerts monthlyWindow.agentBreakdown monthlyBudgetUsd

end OpenClaw.CostTracker

namespace OpenClaw.BudgetForecastService

/-- Cost sample consumed by `BudgetForecastService` (`timestamp` in epoch ms). -/
structure CostPoint where
  timestamp : ℤ
  costUsd : ℚ
  deriving DecidableEq

/-- UTC calendar-day bucket of an epoch-millisecond timestamp.  The source
builds the string key `YYYY-MM-DD` from `getUTCFullYear` / `getUTCMonth` /
`getUTCDate`; by the ECMAScript date algorithms those three getters are
functions of `Day(t) = floor(t / 86400000)` alone and determine it uniquely,
so two timestamps produce the same string key exactly when they have the same
`Day(t)`.  The bucket is therefore modelled by that day number. -/
def dayKey (ts : ℤ) : ℤ := Int.fdiv ts 86400000

/-- Model of `[...costs].sort((a, b) => a.timestamp - b.timestamp)`:
JavaScript `Array.prototype.sort` is a stable sort by the comparator, and
insertion sort with a `≤` comparator is stable. -/
def sortByTimestamp (costs : List CostPoint) : List CostPoint :=
  costs.insertionSort fun a b => a.timestamp ≤ b.timestamp

/-- The day-bucketing loop shared by `calculateVelocity` and
`calculateVariance`: fold the samples into an insertion-ordered map from UTC
day to summed cost. -/
def groupByDay (costs : List CostPoint) : List (ℤ × ℚ) :=
  costs.foldl (fun m c => mapAdd m (dayKey c.timestamp) c.costUsd) []

/-- Embedding of `BudgetForecastService.calculateVelocity`. -/
def calculateVelocity (costs : List CostPoint) : ℚ :=
  match costs with
  | [] => 0
  | [c] => c.costUsd
  | _ =>
    let sorted := sortByTimestamp costs
    let dailyCosts := (groupByDay sorted).map Prod.snd
    if dailyCosts.length = 0 then 0
    else toFixedVal 4 (dailyCosts.sum / (dailyCosts.length : ℚ))

/-- Embedding of `BudgetForecastService.getForecast` (the source default for
`days` is 7; `get7DayForecast` and `get30DayForecast` pass 7 and 30). -/
def getForecast (costs : List CostPoint) (days : ℚ) : ℚ :=
  toFixedVal 2 (calculateVelocity costs * days)

/-- Trend classification returned by `getTrendAnalysis`. -/
inductive Trend where
  | up
  | down
  | stable
  deriving DecidableEq

/-- Embedding of `BudgetForecastService.getTrendAnalysis`.  The source
computes `percentChange = ((secondAvg - firstAvg) / firstAvg) * 100` with no
zero guard; when `firstAvg = 0` the JavaScript quotient is `+Infinity`,
`-Infinity` or `NaN` according to the sign of `secondAvg - firstAvg`, which
makes `percentChange > 5` / `percentChange < -5` come out as below. -/
def getTrendAnalysis (costs : List CostPoint) : Trend :=
  if costs.length < 2 then .stable
  else
    let sorted := sortByTimestamp costs
    let midpoint := sorted.length / 2
    let firstHalf := sorted.take midpoint
    let secondHalf := sorted.drop midpoint
    let firstAvg := (firstHalf.map CostPoint.costUsd).sum / (firstHalf.length : ℚ)
    let secondAvg := (secondHalf.map CostPoint.costUsd).sum / (secondHalf.length : ℚ)
    if firstAvg = 0 then
      if 0 < secondAvg - firstAvg then .up
      else if secondAvg - firstAvg < 0 then .down
      else .stable
    else
      let percentChange := (secondAvg - firstAvg) / firstAvg * 100
      if 5 < percentChange then .up
      else if percentChange < -5 then .down
      else .stable

/-- Embedding of `BudgetForecastService.calculateConfidenceLevel`.  The
source computes `cv = stdDev / mean` with `stdDev = Math.sqrt(variance)`
(and `cv = 0` when `mean <= 0`); since the square root of a rational is
irrational in general, the already-computed coefficient of variation `cv` is
taken as the argument here, and the sample list enters only through its
length (`costs.length` is all the source uses past the mean folded into
`cv`). -/
def calculateConfidenceLevel (cv : ℚ) (sampleCount : ℕ) : ℚ :=
  if sampleCount = 0 then 0
  else
    let dataPoints := min ((sampleCount : ℚ) / 100) 1
    let confidence := (1 - min cv 1) * (1 / 2 + dataPoints * (1 / 2))
    toFixedVal 2 (max 0 (min confidence 1))

/-- Mean cost of the earlier half of the timestamp-sorted samples, split at
the floor midpoint (transcribed from the spec's description of `trend`). -/
def firstHalfMean (costs : List CostPoint) : ℚ :=
  let sorted := sortByTimestamp costs
  let firstHalf := sorted.take (sorted.length / 2)
  (firstHalf.map CostPoint.costUsd).sum / (firstHalf.length : ℚ)

/-- Mean cost of the later half of the timestamp-sorted samples (with an odd
count the extra sample goes to the later half). -/
def secondHalfMean (costs : List CostPoint) : ℚ :=
  let sorted := sortByTimestamp costs
  let secondHalf := sorted.drop (sorted.length / 2)
  (secondHalf.map CostPoint.costUsd).sum / (secondHalf.length : ℚ)

/-- Spec-side trend classification of a relative change given in percent:
strictly more than +5 percent is `up`, strictly less than -5 percent is
`down`, anything else (the 5 percent boundary included) is `stable`. -/
def classifyChange (percent : ℚ) : Trend :=
  if 5 < percent then .up
  else if percent < -5 then .down
  else .stable

/-- Relative change of `laterMean` over `earlierMean`, in percent
(spec-side definition, meaningful when `earlierMean ≠ 0`). -/
def relChangePercent (earlierMean laterMean : ℚ) : ℚ :=
  (laterMean - earlierMean) / earlierMean * 100

/-- Spec-side velocity: the mean of the per-UTC-day totals is the grand total
divided by the number of distinct UTC days, rounded to four decimals. -/
def velocitySpec (costs : List CostPoint) : ℚ :=
  toFixedVal 4 ((costs.map CostPoint.costUsd).sum /
    (((costs.map fun c => dayKey c.timestamp).dedup.length : ℕ) : ℚ))

end OpenClaw.BudgetForecastService

namespace OpenClaw.AlertEngine

/-- Alert severity accepted by `AlertEngine.createAlert`. -/
inductive Severity where
  | info
  | warning
  | error
  | critical
  deriving DecidableEq

/-- Embedding of the `Alert` record of alertEngine.ts. -/
structure Alert where
  id : String
  timestamp : ℤ
  severity : Severity
  type : String
  agentId : Option String
  message : String
  acknowledged : Bool
  acknowledgedAt : Option ℤ
  acknowledgedBy : Option String
  deriving DecidableEq

/-- State of an `AlertEngine` instance: the `alerts` map, the deduplication
window, and the `lastAlertTime` map (both maps keyed by the deduplication
key, modelled as insertion-ordered association lists). -/
structure EngineState where
  alerts : List (String × Alert)
  deduplicationWindow : ℤ
  lastAlertTime : List (String × ℤ)
  deriving DecidableEq

/-- A freshly constructed `AlertEngine` (empty maps, 60000 ms window). -/
def initialEngine : EngineState :=
  { alerts := [], deduplicationWindow := 60000, lastAlertTime := [] }

/-- Embedding of the private `deduplicationKey` helper. -/
def deduplicationKey (type : String) (agentId : Option String) : String :=
  type ++ "-" ++ agentId.getD "system"

/-- Embedding of `AlertEngine.createAlert` (with `Date.now()` as the explicit
`now`).  Inside the deduplication window the source returns
`this.alerts.get(key)!` — a non-null assertion on a map lookup — so the model
returns the bare `Option` that lookup produces: `none` is exactly the case in
which the source hands `undefined` to a caller that was promised an `Alert`. -/
def createAlert (s : EngineState) (severity : Severity)
    (type message : String) (agentId : Option String) (now : ℤ) :
    Option Alert × EngineState :=
  let key := deduplicationKey type agentId
  let lastTime := (List.lookup key s.lastAlertTime).getD 0
  if now - lastTime < s.deduplicationWindow then
    (List.lookup key s.alerts, s)
  else
    let alert : Alert :=
      { id := type ++ "-" ++ agentId.getD "system" ++ "-" ++ toString now
        timestamp := now
        severity := severity
        type := type
        agentId := agentId
        message := message
        acknowledged := false
        acknowledgedAt := none
        acknowledgedBy := none }
    (some alert,
      { s with alerts := mapSet s.alerts key alert
               lastAlertTime := mapSet s.lastAlertTime key now })

/-- Helper for `acknowledgeAlert`: the source does
`Array.from(this.alerts.values()).find((a) => a.id === alertId)` and mutates
the found object in place, which updates the map entry holding it; this walks
the entries in order and updates the first alert whose id matches. -/
def ackFirst (alertId acknowledgedBy : String) (now : ℤ) :
    List (String × Alert) → Bool × List (String × Alert)
  | [] => (false, [])
  | (k, a) :: rest =>
    if a.id = alertId then
      (true, (k, { a with acknowledged := true
                          acknowledgedAt := some now
                          acknowledgedBy := some acknowledgedBy }) :: rest)
    else
      let r := ackFirst alertId acknowledgedBy now rest
      (r.1, (k, a) :: r.2)

/-- Embedding of `AlertEngine.acknowledgeAlert`. -/
def acknowledgeAlert (s : EngineState) (alertId acknowledgedBy : String)
    (now : ℤ) : Bool × EngineState :=
  let r := ackFirst alertId acknowledgedBy now s.alerts
  (r.1, { s with alerts := r.2 })

/-- Embedding of `AlertEngine.clearOldAlerts`: deletes every entry whose
alert is acknowledged and strictly older than `ageMs`, returns the number of
entries deleted.  Note that the source deletes from `this.alerts` only — the
`lastAlertTime` entry for the key is left behind. -/
def clearOldAlerts (s : EngineState) (ageMs : ℤ) (now : ℤ) :
    ℕ × EngineState :=
  let kept := s.alerts.filter fun kv =>
    !(kv.2.acknowledged && decide (ageMs < now - kv.2.timestamp))
  (s.alerts.length - kept.length, { s with alerts := kept })

/-- Repeated `createAlert` calls with fixed severity/type/message/agent at
the given sequence of clock readings, collecting each call's return value. -/
def createMany (s : EngineState) (severity : Severity)
    (type message : String) (agentId : Option String) :
    List ℤ → List (Option Alert) × EngineState
  | [] => ([], s)
  | t :: ts =>
    let r := createAlert s severity type message agentId t
    let rest := createMany r.2 severity type message agentId ts
    (r.1 :: rest.1, rest.2)

end OpenClaw.AlertEngine

namespace OpenClaw.ErrorTracker

/-- Boolean substring test on character lists (`pat` occurs inside `l`),
modelling JavaScript `String.prototype.includes`. -/
def containsAux (pat : List Char) : List Char → Bool
  | [] => pat.isEmpty
  | c :: rest => List.isPrefixOf pat (c :: rest) || containsAux pat rest

/-- Model of `s.includes(pat)`. -/
def strContains (s pat : String) : Bool := containsAux pat.toList s.toList

/-- Model of `String.prototype.toLowerCase`, mapping every character through
`Char.toLower` (the source's match patterns are plain ASCII). -/
def asciiLower (s : String) : String := String.mk (s.data.map Char.toLower)

/-- Embedding of `ErrorTracker.categorizeError`.  The guard
`!errorCode && !errorMessage` treats both `undefined` and the empty string as
falsy; `errorCode?.toString() || ''` likewise collapses a missing code to
`""`, and the message is lower-cased before the `includes` checks. -/
def categorizeError (errorCode errorMessage : Option String) : String :=
  if errorCode.getD "" = "" && errorMessage.getD "" = "" then "unknown"
  else
    let code := errorCode.getD ""
    let message := asciiLower (errorMessage.getD "")
    if code = "429" || strContains message "rate limit" then "rate_limit"
    else if code = "401" || code = "403" || strContains message "unauthorized" then "auth_error"
    else if code = "400" || code = "422" || strContains message "invalid" then "invalid_input"
    else if code = "500" || code = "502" || code = "503" || code = "504" then "server_error"
    else if code = "408" || strContains message "timeout" then "timeout"
    else if code = "404" || strContains message "not found" then "not_found"
    else if strContains message "econnrefused" || strContains message "connection refused" then "connection_error"
    else if strContains message "enotfound" || strContains message "dns" then "dns_error"
    else "api_error"

/-- First-match-wins evaluation of an ordered rule list, with a default. -/
def firstMatch : List (Bool × String) → String → String
  | [], dflt => dflt
  | (b, r) :: rest, dflt => if b then r else firstMatch rest dflt

/-- Spec-side classifier, written as an explicit first-match-wins precedence
ladder over the spec's rules, with the server_error tier holding the codes
the source actually recognises (500, 502, 503, 504 — not every 5xx code). -/
def categorizeSpec (errorCode errorMessage : Option String) : String :=
  if errorCode.getD "" = "" && errorMessage.getD "" = "" then "unknown"
  else
    let code := errorCode.getD ""
    let message := asciiLower (errorMessage.getD "")
    firstMatch
      [ (code = "429" || strContains message "rate limit", "rate_limit"),
        (code = "401" || code = "403" || strContains message "unauthorized", "auth_error"),
        (code = "400" || code = "422" || strContains message "invalid", "invalid_input"),
        (code = "500" || code = "502" || code = "503" || code = "504", "server_error"),
        (code = "408" || strContains message "timeout", "timeout"),
        (code = "404" || strContains message "not found", "not_found"),
        (strContains message "econnrefused" || strContains message "connection refused", "connection_error"),
        (strContains message "enotfound" || strContains message "dns", "dns_error") ]
      "api_error"

/-- The fixed error-type enumeration of the classifier. -/
def errorTypes : List String :=
  ["rate_limit", "auth_error", "invalid_input", "server_error", "timeout",
   "not_found", "connection_error", "dns_error", "api_error", "unknown"]

end OpenClaw.ErrorTracker

namespace OpenClaw

theorem abs_toFixedVal_sub (k : ℕ) (q : ℚ) :
    |toFixedVal k q - q| ≤ 1 / (2 * 10 ^ k) := by
  have hp : (0 : ℚ) < 10 ^ k := by positivity
  have hr : |(|q| * 10 ^ k) - ((round (|q| * 10 ^ k) : ℤ) : ℚ)| ≤ 1 / 2 :=
    abs_sub_round _
  rcases lt_or_le q 0 with hq | hq
  · have habs : |q| = -q := abs_of_neg hq
    simp only [toFixedVal, if_pos hq, habs]
    have : (-1 : ℚ) * ((round (-q * 10 ^ k) : ℤ) : ℚ) / 10 ^ k - q =
        -((((round (-q * 10 ^ k) : ℤ) : ℚ) - (-q * 10 ^ k)) / 10 ^ k) := by
      field_simp
      ring
    rw [this, abs_neg, abs_div, abs_of_pos hp,
      div_le_div_iff₀ (by positivity) (by positivity)]
    rw [habs] at hr
    rw [abs_sub_comm] at hr
    nlinarith [hr]
  · have habs : |q| = q := abs_of_nonneg hq
    simp only [toFixedVal, if_neg (not_lt.mpr hq), habs]
    have : (1 : ℚ) * ((round (q * 10 ^ k) : ℤ) : ℚ) / 10 ^ k - q =
        (((round (q * 10 ^ k) : ℤ) : ℚ) - q * 10 ^ k) / 10 ^ k := by
      field_simp
      ring
    rw [this, abs_div, abs_of_pos hp,
      div_le_div_iff₀ (by positivity) (by positivity)]
    rw [habs] at hr
    rw [abs_sub_comm] at hr
    nlinarith [hr]

theorem round_mono {x y : ℚ} (h : x ≤ y) : round x ≤ round y := by
  rw [round_eq, round_eq]
  exact Int.floor_le_floor (by linarith)

theorem toFixedVal_nonneg (k : ℕ) {q : ℚ} (hq : 0 ≤ q) : 0 ≤ toFixedVal k q := by
  have hp : (0 : ℚ) < 10 ^ k := by positivity
  simp only [toFixedVal, if_neg (not_lt.mpr hq), one_mul]
  have : (0 : ℤ) ≤ round (|q| * 10 ^ k) := by
    have : round (0 : ℚ) ≤ round (|q| * 10 ^ k) := round_mono (by positivity)
    simpa using this
  positivity

theorem toFixedVal_mono (k : ℕ) {x y : ℚ} (hx : 0 ≤ x) (h : x ≤ y) :
    toFixedVal k x ≤ toFixedVal k y := by
  have hy : 0 ≤ y := le_trans hx h
  have hp : (0 : ℚ) < 10 ^ k := by positivity
  simp only [toFixedVal, if_neg (not_lt.mpr hx), if_neg (not_lt.mpr hy),
    abs_of_nonneg hx, abs_of_nonneg hy, one_mul]
  have hr : round (x * 10 ^ k) ≤ round (y * 10 ^ k) :=
    round_mono (by nlinarith)
  have h2 : ((round (x * 10 ^ k) : ℤ) : ℚ) ≤ ((round (y * 10 ^ k) : ℤ) : ℚ) := by
    exact_mod_cast hr
  gcongr

theorem toFixedVal_add_err (x y : ℚ) :
    |toFixedVal 4 (x + y) - (toFixedVal 4 x + toFixedVal 4 y)| ≤ 3 / 20000 := by
  have h1 := abs_toFixedVal_sub 4 (x + y)
  have h2 := abs_toFixedVal_sub 4 x
  have h3 := abs_toFixedVal_sub 4 y
  norm_num at h1 h2 h3
  rw [abs_le] at h1 h2 h3 ⊢
  constructor <;> linarith [h1.1, h1.2, h2.1, h2.2, h3.1, h3.2]

theorem mapAdd_snd_sum {α : Type} [DecidableEq α] (m : List (α × ℚ)) (k : α) (v : ℚ) :
    ((mapAdd m k v).map Prod.snd).sum = (m.map Prod.snd).sum + v := by
  induction m with
  | nil => simp [mapAdd]
  | cons kv rest ih =>
    obtain ⟨k0, v0⟩ := kv
    by_cases h : k0 = k <;> simp [mapAdd, h, ih] <;> ring

theorem mapAdd_fst_toFinset {α : Type} [DecidableEq α] (m : List (α × ℚ)) (k : α) (v : ℚ) :
    ((mapAdd m k v).map Prod.fst).toFinset = insert k (m.map Prod.fst).toFinset := by
  induction m with
  | nil => simp [mapAdd]
  | cons kv rest ih =>
    obtain ⟨k0, v0⟩ := kv
    by_cases h : k0 = k
    · subst h
      simp [mapAdd]
    · simp only [mapAdd, if_neg h, List.map_cons, List.toFinset_cons, ih]
      exact Finset.Insert.comm k0 k _

theorem mapAdd_fst_mem {α : Type} [DecidableEq α] (m : List (α × ℚ)) (k a : α) (v : ℚ) :
    a ∈ (mapAdd m k v).map Prod.fst ↔ a ∈ m.map Prod.fst ∨ a = k := by
  have := mapAdd_fst_toFinset m k v
  have h1 : a ∈ ((mapAdd m k v).map Prod.fst).toFinset ↔
      a ∈ insert k ((m.map Prod.fst).toFinset) := by rw [this]
  simpa [List.mem_toFinset, Finset.mem_insert, or_comm] using h1

theorem mapAdd_fst_nodup {α : Type} [DecidableEq α] (m : List (α × ℚ)) (k : α) (v : ℚ)
    (h : (m.map Prod.fst).Nodup) : ((mapAdd m k v).map Prod.fst).Nodup := by
  induction m with
  | nil => simp [mapAdd]
  | cons kv rest ih =>
    obtain ⟨k0, v0⟩ := kv
    simp only [List.map_cons, List.nodup_cons] at h
    by_cases hk : k0 = k
    · subst hk
      simpa [mapAdd, List.nodup_cons] using h
    · simp only [mapAdd, if_neg hk, List.map_cons, List.nodup_cons]
      refine ⟨?_, ih h.2⟩
      rw [mapAdd_fst_mem]
      rintro (hmem | rfl)
      · exact h.1 hmem
      · exact hk rfl

end OpenClaw

namespace OpenClaw.BudgetForecastService

theorem sortByTimestamp_perm (costs : List CostPoint) :
    (sortByTimestamp costs).Perm costs :=
  List.perm_insertionSort _ costs

theorem groupFold_snd_sum (l : List CostPoint) :
    ∀ m : List (ℤ × ℚ),
      (((l.foldl (fun m c => mapAdd m (dayKey c.timestamp) c.costUsd) m)).map
          Prod.snd).sum =
        (m.map Prod.snd).sum + (l.map CostPoint.costUsd).sum := by
  induction l with
  | nil => intro m; simp
  | cons c l ih =>
    intro m
    simp only [List.foldl_cons, List.map_cons, List.sum_cons]
    rw [ih, mapAdd_snd_sum]
    ring

theorem groupFold_fst_toFinset (l : List CostPoint) :
    ∀ m : List (ℤ × ℚ),
      ((l.foldl (fun m c => mapAdd m (dayKey c.timestamp) c.costUsd) m).map
          Prod.fst).toFinset =
        (m.map Prod.fst).toFinset ∪ (l.map fun c => dayKey c.timestamp).toFinset := by
  induction l with
  | nil => intro m; simp
  | cons c l ih =>
    intro m
    simp only [List.foldl_cons, List.map_cons, List.toFinset_cons]
    rw [ih, mapAdd_fst_toFinset]
    ext a
    simp only [Finset.mem_union, Finset.mem_insert, List.mem_toFinset]
    tauto

theorem groupFold_fst_nodup (l : List CostPoint) :
    ∀ m : List (ℤ × ℚ), (m.map Prod.fst).Nodup →
      ((l.foldl (fun m c => mapAdd m (dayKey c.timestamp) c.costUsd) m).map
          Prod.fst).Nodup := by
  induction l with
  | nil => intro m hm; simpa using hm
  | cons c l ih =>
    intro m hm
    exact ih _ (mapAdd_fst_nodup _ _ _ hm)

theorem groupByDay_snd_sum (l : List CostPoint) :
    ((groupByDay l).map Prod.snd).sum = (l.map CostPoint.costUsd).sum := by
  have := groupFold_snd_sum l []
  simpa [groupByDay] using this

theorem groupByDay_length (l : List CostPoint) :
    (groupByDay l).length = (l.map fun c => dayKey c.timestamp).dedup.length := by
  have hfin := groupFold_fst_toFinset l []
  have hnd := groupFold_fst_nodup l [] (by simp)
  have h1 : (groupByDay l).length = ((groupByDay l).map Prod.fst).length := by
    simp
  rw [h1]
  simp only [groupByDay]
  rw [← List.toFinset_card_of_nodup hnd, hfin]
  simp [List.card_toFinset]

end OpenClaw.BudgetForecastService

/-- Claim C1 (code bug): the spec requires that `generateAlerts` with
`monthlyBudget <= 0` return the empty alert list ("treat as no budget
configured", defensively).  The source has no such guard: at
`monthlyBudgetUsd = 0` with a single in-window $25 sample, the daily limit is
`0 / 30 = 0`, every percentage becomes `Infinity`, and three alerts are
emitted (daily critical, monthly critical, per-agent warning) instead of
none. -/
theorem generateAlerts_zero_budget_emits_alerts :
    (OpenClaw.CostTracker.generateAlerts
        [{ timestamp := 1000000000000, agentId := "agent-1", costUsd := 25 }]
        0 1000000000000).length = 3 := by
  have h : OpenClaw.toFixedVal 4 (25 : ℚ) = 25 := by
    norm_num [OpenClaw.toFixedVal, round_eq]
  simp only [OpenClaw.CostTracker.generateAlerts, OpenClaw.CostTracker.calculateWindow]
  norm_num [OpenClaw.CostTracker.scopeAlerts, OpenClaw.CostTracker.agentAlerts,
    OpenClaw.CostTracker.inWindow, OpenClaw.CostTracker.windowStart,
    OpenClaw.jsPercentGe, OpenClaw.mapAdd, h, List.filter_cons, List.filter_nil,
    List.filterMap_cons, List.filterMap_nil]

/-- Claim C6 counterexample: "501" is a 5xx status code, so the claim's
server_error tier ("5xx codes") would classify it as `server_error`; the
source only recognises 500/502/503/504 there, and `categorizeError` on code
"501" with no message falls through the whole ladder to `api_error`. -/
theorem categorizeError_501_counterexample :
    OpenClaw.ErrorTracker.categorizeError (some "501") none = "api_error" ∧
      OpenClaw.ErrorTracker.categorizeError (some "501") none ≠ "server_error" := by
  have h : OpenClaw.ErrorTracker.categorizeError (some "501") none = "api_error" := by
    rfl
  exact ⟨h, by rw [h]; decide⟩

/-- Claim C6 (amended): `categorizeError` is total over the fixed
enumeration and never raises; both inputs absent yields `unknown`; code "429"
wins with any message; and the whole classifier equals the spec's
first-match-wins precedence ladder with the server_error tier holding exactly
the codes 500, 502, 503 and 504 (not every 5xx code). -/
theorem categorizeError_spec :
    (∀ code msg, OpenClaw.ErrorTracker.categorizeError code msg ∈
        OpenClaw.ErrorTracker.errorTypes) ∧
    OpenClaw.ErrorTracker.categorizeError none none = "unknown" ∧
    (∀ msg, OpenClaw.ErrorTracker.categorizeError (some "429") msg = "rate_limit") ∧
    (∀ code msg, OpenClaw.ErrorTracker.categorizeError code msg =
        OpenClaw.ErrorTracker.categorizeSpec code msg) := by
  refine ⟨?_, by rfl, ?_, ?_⟩
  · intro code msg
    unfold OpenClaw.ErrorTracker.categorizeError
    dsimp only
    repeat' split
    all_goals decide
  · intro msg
    rcases msg with _ | m
    · rfl
    · unfold OpenClaw.ErrorTracker.categorizeError
      dsimp only
      simp
  · intro code msg
    rfl

/-- Claim C9: `calculateWindow` is a pure, deterministic function of its
inputs (samples, period, evaluation instant `now`): two runs on equal inputs
agree on every field of the resulting `CostWindow` (startTime, endTime,
totalCostUsd, requestCount and the per-agent breakdown). -/
theorem calculateWindow_deterministic
    (c₁ c₂ : List OpenClaw.CostTracker.CostSample)
    (p₁ p₂ : OpenClaw.CostTracker.Period) (n₁ n₂ : ℤ)
    (hc : c₁ = c₂) (hp : p₁ = p₂) (hn : n₁ = n₂) :
    (OpenClaw.CostTracker.calculateWindow c₁ p₁ n₁).startTime =
        (OpenClaw.CostTracker.calculateWindow c₂ p₂ n₂).startTime ∧
      (OpenClaw.CostTracker.calculateWindow c₁ p₁ n₁).endTime =
        (OpenClaw.CostTracker.calculateWindow c₂ p₂ n₂).endTime ∧
      (OpenClaw.CostTracker.calculateWindow c₁ p₁ n₁).totalCostUsd =
        (OpenClaw.CostTracker.calculateWindow c₂ p₂ n₂).totalCostUsd ∧
      (OpenClaw.CostTracker.calculateWindow c₁ p₁ n₁).requestCount =
        (OpenClaw.CostTracker.calculateWindow c₂ p₂ n₂).requestCount ∧
      (OpenClaw.CostTracker.calculateWindow c₁ p₁ n₁).agentBreakdown =
        (OpenClaw.CostTracker.calculateWindow c₂ p₂ n₂).agentBreakdown := by
  subst hc hp hn
  exact ⟨rfl, rfl, rfl, rfl, rfl⟩

/-- Witness for C9 at a concrete input. -/
theorem calculateWindow_deterministic_witness :
    (OpenClaw.CostTracker.calculateWindow
        [{ timestamp := 5, agentId := "a", costUsd := 1 }]
        .daily 1000).totalCostUsd =
      (OpenClaw.CostTracker.calculateWindow
        [{ timestamp := 5, agentId := "a", costUsd := 1 }]
        .daily 1000).totalCostUsd :=
  (calculateWindow_deterministic
      [{ timestamp := 5, agentId := "a", costUsd := 1 }]
      [{ timestamp := 5, agentId := "a", costUsd := 1 }]
      .daily .daily 1000 1000 rfl rfl rfl).2.2.1

/-- Claim C10 (code bug): `createAlert` can return `undefined` where an
`Alert` is promised.  Create an alert, acknowledge it, sweep it with
`clearOldAlerts` (which deletes from the `alerts` map but leaves the key's
`lastAlertTime` behind), then call `createAlert` again for the same key while
still inside the deduplication window: the dedup branch executes
`this.alerts.get(key)!` on a key that is no longer present, so the call
returns `undefined` (`none` in the model) even though the key's last-alert
time is within the window. -/
theorem createAlert_dedup_returns_none :
    (let s₁ := (OpenClaw.AlertEngine.createAlert OpenClaw.AlertEngine.initialEngine
        .warning "cost-spike" "m1" (some "agent-9") 200000).2
     let s₂ := (OpenClaw.AlertEngine.acknowledgeAlert s₁
        "cost-spike-agent-9-200000" "ops" 200001).2
     let s₃ := (OpenClaw.AlertEngine.clearOldAlerts s₂ 0 200002).2
     (OpenClaw.AlertEngine.createAlert s₃
        .warning "cost-spike" "m2" (some "agent-9") 200003).1 = none ∧
       List.lookup (OpenClaw.AlertEngine.deduplicationKey "cost-spike" (some "agent-9"))
         s₃.lastAlertTime = some 200000) := by
  constructor <;> decide

/-- Claim C3 counterexample: quantified over all operation sequences, the
dedup property fails.  After create / acknowledge / clearOldAlerts, a
`createAlert` call for the same key that falls inside the deduplication
window returns `none` rather than an existing `Alert`, and zero (not exactly
one) alerts are stored for the key. -/
theorem createAlert_dedup_counterexample :
    (let s₁ := (OpenClaw.AlertEngine.createAlert OpenClaw.AlertEngine.initialEngine
        .info "budget-alert" "first" (some "agent-2") 300000).2
     let s₂ := (OpenClaw.AlertEngine.acknowledgeAlert s₁
        "budget-alert-agent-2-300000" "operator" 300005).2
     let s₃ := (OpenClaw.AlertEngine.clearOldAlerts s₂ 1 300010).2
     let r := OpenClaw.AlertEngine.createAlert s₃
        .info "budget-alert" "second" (some "agent-2") 300020
     r.1 = none ∧
       (r.2.alerts.filter fun kv =>
         kv.1 = OpenClaw.AlertEngine.deduplicationKey "budget-alert" (some "agent-2")).length
         = 0) := by
  constructor <;> decide

namespace OpenClaw.AlertEngine

theorem createAlert_dedup_hit (s : EngineState) (severity : Severity)
    (type message : String) (agentId : Option String) (now : ℤ)
    (h : now - ((List.lookup (deduplicationKey type agentId) s.lastAlertTime).getD 0) <
      s.deduplicationWindow) :
    createAlert s severity type message agentId now =
      (List.lookup (deduplicationKey type agentId) s.alerts, s) := by
  unfold createAlert
  dsimp only
  rw [if_pos h]

theorem createMany_cons (s : EngineState) (severity : Severity)
    (type message : String) (agentId : Option String) (x : ℤ) (xs : List ℤ) :
    createMany s severity type message agentId (x :: xs) =
      ((createAlert s severity type message agentId x).1 ::
        (createMany (createAlert s severity type message agentId x).2
          severity type message agentId xs).1,
       (createMany (createAlert s severity type message agentId x).2
          severity type message agentId xs).2) := rfl

theorem createMany_dedup (severity : Severity) (type message : String)
    (agentId : Option String) (a₀ : Alert) (t₀ : ℤ) (s : EngineState)
    (hl : List.lookup (deduplicationKey type agentId) s.lastAlertTime = some t₀)
    (ha : List.lookup (deduplicationKey type agentId) s.alerts = some a₀) :
    ∀ times : List ℤ, (∀ t ∈ times, t - t₀ < s.deduplicationWindow) →
      createMany s severity type message agentId times =
        (times.map fun _ => some a₀, s) := by
  intro times
  induction times with
  | nil => intro _; rfl
  | cons t ts ih =>
    intro h
    have hcond : t - ((List.lookup (deduplicationKey type agentId) s.lastAlertTime).getD 0) <
        s.deduplicationWindow := by
      rw [hl]
      simpa using h t (by simp)
    have hstep : createAlert s severity type message agentId t = (some a₀, s) := by
      rw [createAlert_dedup_hit s severity type message agentId t hcond, ha]
    rw [createMany_cons, hstep]
    simp only [List.map_cons]
    rw [ih fun u hu => h u (by simp [hu])]

end OpenClaw.AlertEngine

/-- Claim C3 (amended): within an operation sequence in which the key's
stored alert is not removed (here: a fresh engine followed only by
`createAlert` calls), repeated `createAlert` calls with the same
`(type, agentId)` key inside the deduplication window (default 60000 ms)
leave exactly one stored `Alert` for that key and every such call returns
that identical existing `Alert` unchanged, with the engine state unchanged,
regardless of the call count.  (The `60000 ≤ t₀` hypothesis keeps the first
call itself outside the dedup window of the `lastAlertTime.get(key) || 0`
default that a fresh engine reports.) -/
theorem createAlert_dedup_idempotent (severity : OpenClaw.AlertEngine.Severity)
    (type message : String) (agentId : Option String) (t₀ : ℤ) (times : List ℤ)
    (h₀ : 60000 ≤ t₀) (h : ∀ t ∈ times, t - t₀ < 60000) :
    ∃ a₀ s₁,
      OpenClaw.AlertEngine.createAlert OpenClaw.AlertEngine.initialEngine
          severity type message agentId t₀ = (some a₀, s₁) ∧
      OpenClaw.AlertEngine.createMany s₁ severity type message agentId times =
        (times.map fun _ => some a₀, s₁) ∧
      (s₁.alerts.filter fun kv =>
        kv.1 = OpenClaw.AlertEngine.deduplicationKey type agentId).length = 1 := by
  refine ⟨{ id := type ++ "-" ++ agentId.getD "system" ++ "-" ++ toString t₀
            timestamp := t₀
            severity := severity
            type := type
            agentId := agentId
            message := message
            acknowledged := false
            acknowledgedAt := none
            acknowledgedBy := none },
    { alerts := [(OpenClaw.AlertEngine.deduplicationKey type agentId,
        { id := type ++ "-" ++ agentId.getD "system" ++ "-" ++ toString t₀
          timestamp := t₀
          severity := severity
          type := type
          agentId := agentId
          message := message
          acknowledged := false
          acknowledgedAt := none
          acknowledgedBy := none })]
      deduplicationWindow := 60000
      lastAlertTime := [(OpenClaw.AlertEngine.deduplicationKey type agentId, t₀)] },
    ?_, ?_, ?_⟩
  · unfold OpenClaw.AlertEngine.createAlert OpenClaw.AlertEngine.initialEngine
    dsimp only
    rw [if_neg (by simp [List.lookup]; omega)]
    simp [OpenClaw.mapSet]
  · exact OpenClaw.AlertEngine.createMany_dedup severity type message agentId _ t₀ _
      (by simp [List.lookup]) (by simp [List.lookup]) times (by simpa using h)
  · simp

/-- Witness for the amended C3 at a concrete input: one creation at
`t₀ = 100000` followed by three duplicate calls inside the window. -/
theorem createAlert_dedup_idempotent_witness :
    (60000 : ℤ) ≤ 100000 ∧
    (∃ a₀ s₁,
      OpenClaw.AlertEngine.createAlert OpenClaw.AlertEngine.initialEngine
          .critical "budget" "over" (some "agent-1") 100000 = (some a₀, s₁) ∧
      OpenClaw.AlertEngine.createMany s₁ .critical "budget" "over" (some "agent-1")
          [100001, 100500, 100999] = ([some a₀, some a₀, some a₀], s₁) ∧
      (s₁.alerts.filter fun kv =>
        kv.1 = OpenClaw.AlertEngine.deduplicationKey "budget" (some "agent-1")).length = 1) := by
  refine ⟨by decide, ?_⟩
  have h := createAlert_dedup_idempotent .critical "budget" "over" (some "agent-1")
    100000 [100001, 100500, 100999] (by decide) (by decide)
  simpa using h

/-- Claim C8: window additivity.  For any two sample lists A and B (in
particular any partition of a sample set into disjoint sublists), with all
three windows computed at the same instant and for each period, the total of
the combined window equals the sum of the two totals up to the rounding error
of the 4-decimal rounding (three roundings of at most half an ulp each). -/
theorem calculateWindow_additivity (A B : List OpenClaw.CostTracker.CostSample)
    (p : OpenClaw.CostTracker.Period) (now : ℤ) :
    |(OpenClaw.CostTracker.calculateWindow (A ++ B) p now).totalCostUsd -
      ((OpenClaw.CostTracker.calculateWindow A p now).totalCostUsd +
        (OpenClaw.CostTracker.calculateWindow B p now).totalCostUsd)| ≤ 3 / 20000 := by
  have hT : ∀ l : List OpenClaw.CostTracker.CostSample,
      (OpenClaw.CostTracker.calculateWindow l p now).totalCostUsd =
        OpenClaw.toFixedVal 4
          ((l.filter (OpenClaw.CostTracker.inWindow p now)).map
            OpenClaw.CostTracker.CostSample.costUsd).sum := fun l => rfl
  rw [hT, hT, hT, List.filter_append, List.map_append, List.sum_append]
  exact OpenClaw.toFixedVal_add_err _ _

/-- Claim C2: for a positive monthly budget, `generateAlerts` decomposes into
the daily ladder, the monthly ladder and the per-agent alerts; each ladder
emits at most one (global, `agentId = none`) alert for its scope, carrying
only the highest threshold crossed — `spend/limit ≥ 100%` critical/100,
otherwise `≥ 75%` warning/75, otherwise `≥ 50%` warning/50, otherwise
nothing, with the boundaries at exactly 75% and 100% included in the higher
tier; per-agent alerts always carry an agentId, so they are never global; and
in the end-to-end scenario ($3000 monthly budget, five $25 samples within the
last hour) the result is exactly one daily-scope critical alert with
threshold 100, and no monthly-scope critical alert. -/
theorem generateAlerts_threshold_ladder :
    (∀ (costs : List OpenClaw.CostTracker.CostSample) (budget : ℚ) (now : ℤ),
      OpenClaw.CostTracker.generateAlerts costs budget now =
        OpenClaw.CostTracker.scopeAlerts "Daily"
            (OpenClaw.CostTracker.calculateWindow costs .daily now).totalCostUsd (budget / 30) ++
          OpenClaw.CostTracker.scopeAlerts "Monthly"
            (OpenClaw.CostTracker.calculateWindow costs .monthly now).totalCostUsd budget ++
          OpenClaw.CostTracker.agentAlerts
            (OpenClaw.CostTracker.calculateWindow costs .monthly now).agentBreakdown budget) ∧
    (∀ (name : String) (spend limit : ℚ), 0 < limit →
      (OpenClaw.CostTracker.scopeAlerts name spend limit).length ≤ 1 ∧
      (limit ≤ spend → ∃ m, OpenClaw.CostTracker.scopeAlerts name spend limit =
        [{ agentId := none, severity := .critical, threshold := 100,
           currentSpend := spend, budgetLimit := limit, message := m }]) ∧
      (3 / 4 * limit ≤ spend → spend < limit →
        ∃ m, OpenClaw.CostTracker.scopeAlerts name spend limit =
        [{ agentId := none, severity := .warning, threshold := 75,
           currentSpend := spend, budgetLimit := limit, message := m }]) ∧
      (1 / 2 * limit ≤ spend → spend < 3 / 4 * limit →
        ∃ m, OpenClaw.CostTracker.scopeAlerts name spend limit =
        [{ agentId := none, severity := .warning, threshold := 50,
           currentSpend := spend, budgetLimit := limit, message := m }]) ∧
      (spend < 1 / 2 * limit → OpenClaw.CostTracker.scopeAlerts name spend limit = [])) ∧
    (∀ (breakdown : List (String × ℚ)) (budget : ℚ)
        (a : OpenClaw.CostTracker.BudgetAlert),
      a ∈ OpenClaw.CostTracker.agentAlerts breakdown budget → a.agentId.isSome = true) ∧
    (∃ m, OpenClaw.CostTracker.generateAlerts
        [⟨1800000000000, "agent-1", 25⟩, ⟨1799999400000, "agent-1", 25⟩,
         ⟨1799998800000, "agent-1", 25⟩, ⟨1799998200000, "agent-1", 25⟩,
         ⟨1799997600000, "agent-1", 25⟩] 3000 1800000000000 =
      [{ agentId := none, severity := .critical, threshold := 100,
         currentSpend := 125, budgetLimit := 100, message := m }]) := by
  have hj : ∀ (spend limit thr : ℚ), 0 < limit →
      OpenClaw.jsPercentGe spend limit thr =
        decide (thr * limit ≤ spend * 100) := by
    intro spend limit thr hl
    unfold OpenClaw.jsPercentGe
    rw [if_pos hl]
  refine ⟨fun _ _ _ => rfl, ?_, ?_, ?_⟩
  · intro name spend limit hl
    refine ⟨?_, ?_, ?_, ?_, ?_⟩
    · unfold OpenClaw.CostTracker.scopeAlerts
      split_ifs <;> simp
    · intro hs
      have hc : OpenClaw.jsPercentGe spend limit 100 = true := by
        rw [hj _ _ _ hl]
        simp only [decide_eq_true_eq]
        nlinarith
      refine ⟨name ++ " budget exceeded: $" ++ OpenClaw.toFixedStr2 spend ++
        " / $" ++ OpenClaw.toFixedStr2 limit, ?_⟩
      unfold OpenClaw.CostTracker.scopeAlerts
      rw [hc]
      rfl
    · intro h75 hlt
      have hc100 : OpenClaw.jsPercentGe spend limit 100 = false := by
        rw [hj _ _ _ hl]
        simp only [decide_eq_false_iff_not, not_le]
        nlinarith
      have hc75 : OpenClaw.jsPercentGe spend limit 75 = true := by
        rw [hj _ _ _ hl]
        simp only [decide_eq_true_eq]
        nlinarith
      refine ⟨name ++ " budget 75% used: $" ++ OpenClaw.toFixedStr2 spend ++
        " / $" ++ OpenClaw.toFixedStr2 limit, ?_⟩
      unfold OpenClaw.CostTracker.scopeAlerts
      rw [hc100, hc75]
      rfl
    · intro h50 hlt
      have hc100 : OpenClaw.jsPercentGe spend limit 100 = false := by
        rw [hj _ _ _ hl]
        simp only [decide_eq_false_iff_not, not_le]
        nlinarith
      have hc75 : OpenClaw.jsPercentGe spend limit 75 = false := by
        rw [hj _ _ _ hl]
        simp only [decide_eq_false_iff_not, not_le]
        nlinarith
      have hc50 : OpenClaw.jsPercentGe spend limit 50 = true := by
        rw [hj _ _ _ hl]
        simp only [decide_eq_true_eq]
        nlinarith
      refine ⟨name ++ " budget 50% used: $" ++ OpenClaw.toFixedStr2 spend ++
        " / $" ++ OpenClaw.toFixedStr2 limit, ?_⟩
      unfold OpenClaw.CostTracker.scopeAlerts
      rw [hc100, hc75, hc50]
      rfl
    · intro hlt
      have hc100 : OpenClaw.jsPercentGe spend limit 100 = false := by
        rw [hj _ _ _ hl]
        simp only [decide_eq_false_iff_not, not_le]
        nlinarith
      have hc75 : OpenClaw.jsPercentGe spend limit 75 = false := by
        rw [hj _ _ _ hl]
        simp only [decide_eq_false_iff_not, not_le]
        nlinarith
      have hc50 : OpenClaw.jsPercentGe spend limit 50 = false := by
        rw [hj _ _ _ hl]
        simp only [decide_eq_false_iff_not, not_le]
        nlinarith
      unfold OpenClaw.CostTracker.scopeAlerts
      rw [hc100, hc75, hc50]
      rfl
  · intro breakdown budget a ha
    simp only [OpenClaw.CostTracker.agentAlerts, List.mem_filterMap] at ha
    obtain ⟨kv, _, hfx⟩ := ha
    by_cases hc : OpenClaw.jsPercentGe kv.2 budget 75
    · rw [if_pos hc] at hfx
      cases hfx
      rfl
    · rw [if_neg hc] at hfx
      cases hfx
  · have htf : OpenClaw.toFixedVal 4 (125 : ℚ) = 125 := by
      norm_num [OpenClaw.toFixedVal, round_eq]
    have hdw : (OpenClaw.CostTracker.calculateWindow
        [⟨1800000000000, "agent-1", 25⟩, ⟨1799999400000, "agent-1", 25⟩,
         ⟨1799998800000, "agent-1", 25⟩, ⟨1799998200000, "agent-1", 25⟩,
         ⟨1799997600000, "agent-1", 25⟩] .daily 1800000000000).totalCostUsd = 125 := by
      simp only [OpenClaw.CostTracker.calculateWindow]
      norm_num [OpenClaw.CostTracker.inWindow, OpenClaw.CostTracker.windowStart,
        List.filter_cons, List.filter_nil, htf]
    have hmw : (OpenClaw.CostTracker.calculateWindow
        [⟨1800000000000, "agent-1", 25⟩, ⟨1799999400000, "agent-1", 25⟩,
         ⟨1799998800000, "agent-1", 25⟩, ⟨1799998200000, "agent-1", 25⟩,
         ⟨1799997600000, "agent-1", 25⟩] .monthly 1800000000000).totalCostUsd = 125 := by
      simp only [OpenClaw.CostTracker.calculateWindow]
      norm_num [OpenClaw.CostTracker.inWindow, OpenClaw.CostTracker.windowStart,
        List.filter_cons, List.filter_nil, htf]
    have hbd : (OpenClaw.CostTracker.calculateWindow
        [⟨1800000000000, "agent-1", 25⟩, ⟨1799999400000, "agent-1", 25⟩,
         ⟨1799998800000, "agent-1", 25⟩, ⟨1799998200000, "agent-1", 25⟩,
         ⟨1799997600000, "agent-1", 25⟩] .monthly 1800000000000).agentBreakdown =
        [("agent-1", (125 : ℚ))] := by
      simp only [OpenClaw.CostTracker.calculateWindow]
      norm_num [OpenClaw.CostTracker.inWindow, OpenClaw.CostTracker.windowStart,
        List.filter_cons, List.filter_nil, OpenClaw.mapAdd]
    have hlim : (3000 : ℚ) / 30 = 100 := by norm_num
    have hd100 : OpenClaw.jsPercentGe 125 100 100 = true := by
      rw [hj _ _ _ (by norm_num)]
      norm_num
    have hm100 : OpenClaw.jsPercentGe 125 3000 100 = false := by
      rw [hj _ _ _ (by norm_num)]
      norm_num
    have hm75 : OpenClaw.jsPercentGe 125 3000 75 = false := by
      rw [hj _ _ _ (by norm_num)]
      norm_num
    have hm50 : OpenClaw.jsPercentGe 125 3000 50 = false := by
      rw [hj _ _ _ (by norm_num)]
      norm_num
    refine ⟨"Daily" ++ " budget exceeded: $" ++ OpenClaw.toFixedStr2 125 ++
      " / $" ++ OpenClaw.toFixedStr2 100, ?_⟩
    show OpenClaw.CostTracker.generateAlerts _ 3000 1800000000000 = _
    rw [show ∀ (costs : List OpenClaw.CostTracker.CostSample),
        OpenClaw.CostTracker.generateAlerts costs 3000 1800000000000 =
          OpenClaw.CostTracker.scopeAlerts "Daily"
              (OpenClaw.CostTracker.calculateWindow costs .daily 1800000000000).totalCostUsd
              (3000 / 30) ++
            OpenClaw.CostTracker.scopeAlerts "Monthly"
              (OpenClaw.CostTracker.calculateWindow costs .monthly 1800000000000).totalCostUsd
              3000 ++
            OpenClaw.CostTracker.agentAlerts
              (OpenClaw.CostTracker.calculateWindow costs .monthly 1800000000000).agentBreakdown
              3000 from fun _ => rfl]
    rw [hdw, hmw, hbd, hlim]
    unfold OpenClaw.CostTracker.scopeAlerts OpenClaw.CostTracker.agentAlerts
    rw [hd100, hm100, hm75, hm50]
    simp [hm75]

/-- Witness for C2: the ladder facts applied at spend 80 against limit 100. -/
theorem generateAlerts_threshold_ladder_witness :
    (OpenClaw.CostTracker.scopeAlerts "Daily" 80 100).length ≤ 1 ∧
      (∃ m, OpenClaw.CostTracker.scopeAlerts "Daily" 80 100 =
        [{ agentId := none, severity := .warning, threshold := 75,
           currentSpend := 80, budgetLimit := 100, message := m }]) :=
  ⟨(generateAlerts_threshold_ladder.2.1 "Daily" 80 100 (by norm_num)).1,
    (generateAlerts_threshold_ladder.2.1 "Daily" 80 100 (by norm_num)).2.2.1
      (by norm_num) (by norm_num)⟩

namespace OpenClaw.BudgetForecastService

theorem calculateVelocity_eq_velocitySpec (costs : List CostPoint)
    (h2 : 2 ≤ costs.length) : calculateVelocity costs = velocitySpec costs := by
  obtain ⟨a, b, rest, rfl⟩ : ∃ a b rest, costs = a :: b :: rest := by
    rcases costs with _ | ⟨a, _ | ⟨b, rest⟩⟩
    · simp at h2
    · simp at h2
    · exact ⟨a, b, rest, rfl⟩
  have hred : calculateVelocity (a :: b :: rest) =
      (if ((groupByDay (sortByTimestamp (a :: b :: rest))).map Prod.snd).length = 0 then 0
       else toFixedVal 4
         (((groupByDay (sortByTimestamp (a :: b :: rest))).map Prod.snd).sum /
           ((((groupByDay (sortByTimestamp (a :: b :: rest))).map Prod.snd).length : ℕ) : ℚ))) :=
    rfl
  have hperm : (sortByTimestamp (a :: b :: rest)).Perm (a :: b :: rest) :=
    sortByTimestamp_perm _
  have hsum : ((groupByDay (sortByTimestamp (a :: b :: rest))).map Prod.snd).sum =
      ((a :: b :: rest).map CostPoint.costUsd).sum := by
    rw [groupByDay_snd_sum]
    exact (hperm.map CostPoint.costUsd).sum_eq
  have hlen : ((groupByDay (sortByTimestamp (a :: b :: rest))).map Prod.snd).length =
      ((a :: b :: rest).map fun c => dayKey c.timestamp).dedup.length := by
    rw [List.length_map, groupByDay_length]
    exact ((hperm.map fun c => dayKey c.timestamp).dedup).length_eq
  have hne : ((a :: b :: rest).map fun c => dayKey c.timestamp).dedup.length ≠ 0 := by
    simp
  rw [hred, if_neg (by rw [hlen]; exact hne), hsum, hlen]
  rfl

end OpenClaw.BudgetForecastService

/-- Claim C4: `calculateVelocity` returns 0 on the empty list, returns the
single sample's exact cost on a one-element list, and on two or more samples
returns the arithmetic mean of the per-UTC-calendar-day cost totals rounded
to 4 decimals (equivalently: the grand total divided by the number of
distinct UTC days); in particular costs 10, 20, 30 on three distinct UTC days
give velocity exactly 20. -/
theorem calculateVelocity_spec :
    OpenClaw.BudgetForecastService.calculateVelocity [] = 0 ∧
    (∀ (t : ℤ) (c : ℚ),
      OpenClaw.BudgetForecastService.calculateVelocity [{ timestamp := t, costUsd := c }] = c) ∧
    (∀ costs, 2 ≤ costs.length →
      OpenClaw.BudgetForecastService.calculateVelocity costs =
        OpenClaw.BudgetForecastService.velocitySpec costs) ∧
    OpenClaw.BudgetForecastService.calculateVelocity
      [⟨0, 10⟩, ⟨86400000, 20⟩, ⟨172800000, 30⟩] = 20 := by
  refine ⟨rfl, fun t c => rfl,
    fun costs h2 => OpenClaw.BudgetForecastService.calculateVelocity_eq_velocitySpec costs h2,
    ?_⟩
  rw [OpenClaw.BudgetForecastService.calculateVelocity_eq_velocitySpec _ (by norm_num)]
  have h0 : OpenClaw.BudgetForecastService.dayKey 0 = 0 := by decide
  have h1 : OpenClaw.BudgetForecastService.dayKey 86400000 = 1 := by decide
  have h2 : OpenClaw.BudgetForecastService.dayKey 172800000 = 2 := by decide
  have hd : ([(0 : ℤ), 1, 2]).dedup.length = 3 := by decide
  norm_num [OpenClaw.BudgetForecastService.velocitySpec, h0, h1, h2, hd,
    OpenClaw.toFixedVal, round_eq]

/-- Witness for C4: the two-or-more-samples law applied at the concrete
three-day example. -/
theorem calculateVelocity_spec_witness :
    OpenClaw.BudgetForecastService.calculateVelocity
        [⟨0, 10⟩, ⟨86400000, 20⟩, ⟨172800000, 30⟩] =
      OpenClaw.BudgetForecastService.velocitySpec
        [⟨0, 10⟩, ⟨86400000, 20⟩, ⟨172800000, 30⟩] :=
  calculateVelocity_spec.2.2.1 _ (by norm_num)

namespace OpenClaw.BudgetForecastService

theorem getTrendAnalysis_eq_classify (costs : List CostPoint)
    (h2 : 2 ≤ costs.length) (hf : firstHalfMean costs ≠ 0) :
    getTrendAnalysis costs =
      classifyChange (relChangePercent (firstHalfMean costs) (secondHalfMean costs)) := by
  unfold getTrendAnalysis
  rw [if_neg (not_lt.mpr h2)]
  unfold firstHalfMean at hf
  dsimp only
  rw [if_neg hf]
  rfl

end OpenClaw.BudgetForecastService

/-- Claim C5: `getTrendAnalysis` returns `stable` on fewer than 2 samples;
otherwise, whenever the earlier half's mean is nonzero (so that the relative
change is defined), the result is the classification of the relative change
of the later half's mean over the earlier half's mean after the
timestamp-sorted samples are split at the floor-midpoint index: strictly
above +5% is `up`, strictly below -5% is `down`, else `stable` — so an
increase of exactly 5.0% yields `stable` and 5.01% yields `up`. -/
theorem getTrendAnalysis_spec :
    (∀ costs, costs.length < 2 →
      OpenClaw.BudgetForecastService.getTrendAnalysis costs = .stable) ∧
    (∀ costs, 2 ≤ costs.length →
      OpenClaw.BudgetForecastService.firstHalfMean costs ≠ 0 →
      OpenClaw.BudgetForecastService.getTrendAnalysis costs =
        OpenClaw.BudgetForecastService.classifyChange
          (OpenClaw.BudgetForecastService.relChangePercent
            (OpenClaw.BudgetForecastService.firstHalfMean costs)
            (OpenClaw.BudgetForecastService.secondHalfMean costs))) ∧
    OpenClaw.BudgetForecastService.getTrendAnalysis [⟨0, 100⟩, ⟨1, 105⟩] = .stable ∧
    OpenClaw.BudgetForecastService.getTrendAnalysis [⟨0, 100⟩, ⟨1, 10501 / 100⟩] = .up := by
  refine ⟨?_, fun costs h2 hf =>
    OpenClaw.BudgetForecastService.getTrendAnalysis_eq_classify costs h2 hf, ?_, ?_⟩
  · intro costs h
    unfold OpenClaw.BudgetForecastService.getTrendAnalysis
    rw [if_pos h]
  · have hs : OpenClaw.BudgetForecastService.sortByTimestamp
        [⟨0, 100⟩, ⟨1, 105⟩] = [⟨0, 100⟩, ⟨1, 105⟩] := by
      simp [OpenClaw.BudgetForecastService.sortByTimestamp,
        List.insertionSort, List.orderedInsert]
    have hf : OpenClaw.BudgetForecastService.firstHalfMean
        [⟨0, 100⟩, ⟨1, 105⟩] = 100 := by
      unfold OpenClaw.BudgetForecastService.firstHalfMean
      rw [hs]
      norm_num
    have hsnd : OpenClaw.BudgetForecastService.secondHalfMean
        [⟨0, 100⟩, ⟨1, 105⟩] = 105 := by
      unfold OpenClaw.BudgetForecastService.secondHalfMean
      rw [hs]
      norm_num
    rw [OpenClaw.BudgetForecastService.getTrendAnalysis_eq_classify _ (by norm_num)
      (by rw [hf]; norm_num), hf, hsnd]
    norm_num [OpenClaw.BudgetForecastService.classifyChange,
      OpenClaw.BudgetForecastService.relChangePercent]
  · have hs : OpenClaw.BudgetForecastService.sortByTimestamp
        [⟨0, 100⟩, ⟨1, 10501 / 100⟩] = [⟨0, 100⟩, ⟨1, 10501 / 100⟩] := by
      simp [OpenClaw.BudgetForecastService.sortByTimestamp,
        List.insertionSort, List.orderedInsert]
    have hf : OpenClaw.BudgetForecastService.firstHalfMean
        [⟨0, 100⟩, ⟨1, 10501 / 100⟩] = 100 := by
      unfold OpenClaw.BudgetForecastService.firstHalfMean
      rw [hs]
      norm_num
    have hsnd : OpenClaw.BudgetForecastService.secondHalfMean
        [⟨0, 100⟩, ⟨1, 10501 / 100⟩] = 10501 / 100 := by
      unfold OpenClaw.BudgetForecastService.secondHalfMean
      rw [hs]
      norm_num
    rw [OpenClaw.BudgetForecastService.getTrendAnalysis_eq_classify _ (by norm_num)
      (by rw [hf]; norm_num), hf, hsnd]
    norm_num [OpenClaw.BudgetForecastService.classifyChange,
      OpenClaw.BudgetForecastService.relChangePercent]

/-- Witness for C5: the nonzero-mean law applied at a concrete two-sample
list with a 10% increase. -/
theorem getTrendAnalysis_spec_witness :
    OpenClaw.BudgetForecastService.getTrendAnalysis [⟨0, 100⟩, ⟨1, 110⟩] =
      OpenClaw.BudgetForecastService.classifyChange
        (OpenClaw.BudgetForecastService.relChangePercent
          (OpenClaw.BudgetForecastService.firstHalfMean [⟨0, 100⟩, ⟨1, 110⟩])
          (OpenClaw.BudgetForecastService.secondHalfMean [⟨0, 100⟩, ⟨1, 110⟩])) := by
  apply getTrendAnalysis_spec.2.1 _ (by norm_num)
  unfold OpenClaw.BudgetForecastService.firstHalfMean
  have hs : OpenClaw.BudgetForecastService.sortByTimestamp
      [⟨0, 100⟩, ⟨1, 110⟩] = [⟨0, 100⟩, ⟨1, 110⟩] := by
    simp [OpenClaw.BudgetForecastService.sortByTimestamp,
      List.insertionSort, List.orderedInsert]
  rw [hs]
  norm_num

/-- Claim C7: the composed forecast is the rounded product of velocity and
days, `getForecast costs days = round2 (calculateVelocity costs * days)`,
also on the empty list (where it is 0); and, holding the coefficient of
variation fixed, `calculateConfidenceLevel` equals
`round2 (clamp ((1 - min cv 1) * (1/2 + min (n/100) 1 * 1/2)) 0 1)` for
at least one sample, and is monotonically non-decreasing in the sample
count. -/
theorem getForecast_confidence_spec :
    (∀ (costs : List OpenClaw.BudgetForecastService.CostPoint) (days : ℚ),
      OpenClaw.BudgetForecastService.getForecast costs days =
        OpenClaw.toFixedVal 2 (OpenClaw.BudgetForecastService.calculateVelocity costs * days)) ∧
    (∀ days : ℚ, OpenClaw.BudgetForecastService.getForecast [] days = 0) ∧
    (∀ (cv : ℚ) (n : ℕ), 1 ≤ n →
      OpenClaw.BudgetForecastService.calculateConfidenceLevel cv n =
        OpenClaw.toFixedVal 2
          (max 0 (min ((1 - min cv 1) * (1 / 2 + min ((n : ℚ) / 100) 1 * (1 / 2))) 1))) ∧
    (∀ (cv : ℚ) (n₁ n₂ : ℕ), n₁ ≤ n₂ →
      OpenClaw.BudgetForecastService.calculateConfidenceLevel cv n₁ ≤
        OpenClaw.BudgetForecastService.calculateConfidenceLevel cv n₂) := by
  refine ⟨fun costs days => rfl, ?_, ?_, ?_⟩
  · intro days
    show OpenClaw.toFixedVal 2 (OpenClaw.BudgetForecastService.calculateVelocity [] * days) = 0
    norm_num [OpenClaw.BudgetForecastService.calculateVelocity, OpenClaw.toFixedVal, round_eq]
  · intro cv n hn
    unfold OpenClaw.BudgetForecastService.calculateConfidenceLevel
    rw [if_neg (by omega)]
  · intro cv n₁ n₂ h
    have hcore : ∀ n : ℕ,
        0 ≤ max 0 (min ((1 - min cv 1) * (1 / 2 + min ((n : ℚ) / 100) 1 * (1 / 2))) 1) :=
      fun n => le_max_left 0 _
    by_cases h1 : n₁ = 0
    · subst h1
      unfold OpenClaw.BudgetForecastService.calculateConfidenceLevel
      rw [if_pos rfl]
      by_cases h2 : n₂ = 0
      · subst h2
        rw [if_pos rfl]
      · rw [if_neg h2]
        exact OpenClaw.toFixedVal_nonneg 2 (hcore n₂)
    · have h2 : n₂ ≠ 0 := by omega
      unfold OpenClaw.BudgetForecastService.calculateConfidenceLevel
      rw [if_neg h1, if_neg h2]
      apply OpenClaw.toFixedVal_mono 2 (hcore n₁)
      have hfac : (0 : ℚ) ≤ 1 - min cv 1 := by
        have : min cv 1 ≤ 1 := min_le_right cv 1
        linarith
      have hdp : min ((n₁ : ℚ) / 100) 1 ≤ min ((n₂ : ℚ) / 100) 1 := by
        apply min_le_min _ le_rfl
        have : (n₁ : ℚ) ≤ (n₂ : ℚ) := by exact_mod_cast h
        linarith
      have hmul : (1 - min cv 1) * (1 / 2 + min ((n₁ : ℚ) / 100) 1 * (1 / 2)) ≤
          (1 - min cv 1) * (1 / 2 + min ((n₂ : ℚ) / 100) 1 * (1 / 2)) := by
        apply mul_le_mul_of_nonneg_left _ hfac
        linarith
      exact max_le_max le_rfl (min_le_min hmul le_rfl)

/-- Witness for C7: the formula law at one sample and monotonicity at
`cv = 1/2`, sample counts 10 and 50. -/
theorem getForecast_confidence_spec_witness :
    OpenClaw.BudgetForecastService.calculateConfidenceLevel (1 / 2) 3 =
      OpenClaw.toFixedVal 2
        (max 0 (min ((1 - min (1 / 2 : ℚ) 1) * (1 / 2 + min ((3 : ℚ) / 100) 1 * (1 / 2))) 1)) ∧
    OpenClaw.BudgetForecastService.calculateConfidenceLevel (1 / 2) 10 ≤
      OpenClaw.BudgetForecastService.calculateConfidenceLevel (1 / 2) 50 :=
  ⟨by
    have h := getForecast_confidence_spec.2.2.1 (1 / 2) 3 (by norm_num)
    simpa using h,
   getForecast_confidence_spec.2.2.2 (1 / 2) 10 50 (by norm_num)⟩
